import Mathlib

/-!
# Verification of the dynamic-pricing grocery backend

Shallow embedding of `src/dynamic-pricing-grocery/backend/app.py`.

Conventions of the embedding:
* The pandas dataframe `df` is a `Dataset`: a list of product rows in their
  original CSV order, plus the optional derived `demand_ratio` column that
  `get_insights` assigns into the process-wide frame
  (`df['demand_ratio'] = ...`).
* Python/numpy floats are modelled as exact rationals `ℚ`.  Python's
  `round(x, 2)` (banker's rounding of a binary float) is modelled as
  decimal rounding of the exact rational via Mathlib's `round`
  (round-half-up); no claim below depends on an exact decimal midpoint
  where the two tie-breaking rules differ, and the counterexamples chosen
  avoid such midpoints on the float side as well.
* In `ℚ`, `x / 0 = 0`; where the Python code would produce `NaN`
  (a zero denominator), theorems carry an explicit nonzero-denominator
  hypothesis instead of relying on that convention.
* `np.clip(a, lo, hi) = min (max a lo) hi`.
* Stateless HTTP handlers raising `HTTPException(status_code=404)` are
  modelled as `Except ℕ _` returning `.error 404`.
-/

/-- One row of `data/groceries.csv` (columns used by the backend). -/
structure ProductRow where
  product_id : ℕ
  name : String
  category : String
  base_price : ℚ
  stock : ℕ
  sales_7 : ℕ
  sales_30 : ℕ
  day : ℕ
deriving DecidableEq, Repr

/-- The process-wide dataframe `df`: the product rows plus the optional
`demand_ratio` column that `get_insights` assigns into the frame. -/
structure Dataset where
  rows : List ProductRow
  demand_ratio_col : Option (List ℚ)
deriving DecidableEq, Repr

/-- `df['stock'].max()` — maximum stock over the whole dataset
(the dataset is nonempty in every use below; on `[]` pandas would
give `NaN`, we give `0`). -/
def maxStock (rows : List ProductRow) : ℕ :=
  rows.foldr (fun r m => max r.stock m) 0

/-- `product['sales_7'] / (product['stock'] + 1)` — the demand ratio of a
single row, as recomputed both in `calculate_dynamic_price` and in
`get_insights`. -/
def demandRatioOf (p : ProductRow) : ℚ :=
  (p.sales_7 : ℚ) / ((p.stock : ℚ) + 1)

/-- The five derived features plus the passed-through day
(`calculate_dynamic_price`, feature block). -/
structure Features where
  demand_ratio : ℚ
  inventory_level : ℚ
  sales_trend : ℚ
  popularity : ℚ
  scarcity : ℚ
  day : ℚ
deriving DecidableEq, Repr

/-- The feature block of `calculate_dynamic_price`, for one product row and
the dataset-wide maximum stock `m` (`df['stock'].max()`). -/
def deriveFeatures (p : ProductRow) (m : ℕ) : Features :=
  { demand_ratio := (p.sales_7 : ℚ) / ((p.stock : ℚ) + 1)
    inventory_level := (p.stock : ℚ) / (m : ℚ)
    sales_trend := (p.sales_30 : ℚ) / ((p.sales_7 : ℚ) + 1)
    popularity := (p.sales_30 : ℚ) / (p.base_price * (p.stock : ℚ) + 1)
    scarcity := 1 / ((p.stock : ℚ) + 1)
    day := (p.day : ℚ) }

/-- `round(x, 2)`: rounding to 2 decimal places. -/
def round2 (q : ℚ) : ℚ := (round (q * 100) : ℚ) / 100

/-- `np.clip(predicted_price, base_price * 0.5, base_price * 1.5)`. -/
def boundPrice (raw b : ℚ) : ℚ := min (max raw (b * 0.5)) (b * 1.5)

/-- The fallback predicted price
`base_price * (1 + (demand_ratio * 0.3) - (inventory_level * 0.2))`,
used when no model/scaler is loaded. -/
def rawFallbackPrice (rows : List ProductRow) (p : ProductRow) : ℚ :=
  let f := deriveFeatures p (maxStock rows)
  p.base_price * (1 + (f.demand_ratio * 0.3) - (f.inventory_level * 0.2))

/-- `demand_level` classification in `calculate_dynamic_price`:
`if demand_ratio > 2: "High" elif demand_ratio > 1: "Medium" else: "Low"`. -/
def demandLevelOf (r : ℚ) : String :=
  if r > 2 then "High" else if r > 1 then "Medium" else "Low"

/-- The dict returned by `calculate_dynamic_price`. -/
structure PricingResult where
  base_price : ℚ
  dynamic_price : ℚ
  discount_percent : ℚ
  demand_level : String
  demand_ratio : ℚ
  stock : ℕ
deriving DecidableEq, Repr

/-- The body of `calculate_dynamic_price` after the product has been found
(fallback path: no model/scaler loaded). -/
def priceRow (rows : List ProductRow) (p : ProductRow) : PricingResult :=
  let f := deriveFeatures p (maxStock rows)
  let predicted := boundPrice (rawFallbackPrice rows p) p.base_price
  { base_price := p.base_price
    dynamic_price := round2 predicted
    discount_percent := round2 (((predicted - p.base_price) / p.base_price) * 100)
    demand_level := demandLevelOf f.demand_ratio
    demand_ratio := round2 f.demand_ratio
    stock := p.stock }

/-- `calculate_dynamic_price(product_id)` (fallback path): `df[df['product_id']
== product_id]` then `.iloc[0]` is the first matching row; `None` when the
selection is empty. -/
def calculate_dynamic_price (rows : List ProductRow) (pid : ℕ) :
    Option PricingResult :=
  match rows.filter (fun r => r.product_id == pid) with
  | [] => none
  | p :: _ => some (priceRow rows p)

/-- The `Product` response model used by the list endpoints. -/
structure ProductOut where
  product_id : ℕ
  name : String
  category : String
  base_price : ℚ
  stock : ℕ
  dynamic_price : ℚ
  discount_percent : ℚ
  demand_level : String
deriving DecidableEq, Repr

/-- Building one `Product` response entry from a row and its pricing dict. -/
def mkProductOut (r : ProductRow) (pr : PricingResult) : ProductOut :=
  { product_id := r.product_id, name := r.name, category := r.category
    base_price := pr.base_price, stock := pr.stock
    dynamic_price := pr.dynamic_price, discount_percent := pr.discount_percent
    demand_level := pr.demand_level }

/-- The response dict of `GET /api/products/{product_id}`. -/
structure ProductDetail where
  product_id : ℕ
  name : String
  category : String
  base_price : ℚ
  dynamic_price : ℚ
  discount_percent : ℚ
  demand_level : String
  demand_ratio : ℚ
  stock : ℕ
  sales_7_days : ℕ
  sales_30_days : ℕ
deriving DecidableEq, Repr

/-- `get_product(product_id)`: `df[df['product_id'] == product_id]`, a 404
`HTTPException` when the selection is empty, else the response built from
the first matching row and `calculate_dynamic_price(product_id)`.  (The
inner `none` branch is unreachable: the same filter was nonempty.) -/
def get_product (rows : List ProductRow) (pid : ℕ) : Except ℕ ProductDetail :=
  match rows.filter (fun r => r.product_id == pid) with
  | [] => .error 404
  | p :: _ =>
    match calculate_dynamic_price rows pid with
    | none => .error 404
    | some pricing =>
      .ok { product_id := p.product_id, name := p.name, category := p.category
            base_price := pricing.base_price
            dynamic_price := pricing.dynamic_price
            discount_percent := pricing.discount_percent
            demand_level := pricing.demand_level
            demand_ratio := pricing.demand_ratio
            stock := pricing.stock
            sales_7_days := p.sales_7, sales_30_days := p.sales_30 }

/-- Python's `str.lower()` as used on the ASCII category strings
(`String.toLower` itself does not reduce in the kernel, so the character
map is spelled out on the underlying character list). -/
def pyLower (s : String) : String := ⟨s.data.map Char.toLower⟩

/-- `get_products_by_category(category)`: case-insensitive filter
`df[df['category'].str.lower() == category.lower()]`, 404 when empty,
else one `Product` per matching row, priced via
`calculate_dynamic_price(row['product_id'])` (rows whose pricing comes
back `None` are skipped by the `if pricing:` guard). -/
def get_products_by_category (rows : List ProductRow) (cat : String) :
    Except ℕ (List ProductOut) :=
  let sel := rows.filter (fun r => pyLower r.category == pyLower cat)
  match sel with
  | [] => .error 404
  | _ :: _ =>
    .ok (sel.filterMap
      (fun r => (calculate_dynamic_price rows r.product_id).map (mkProductOut r)))

/-- Comparator used to model `df.nlargest(10, 'demand_ratio')` with its
default `keep='first'`: larger demand ratio first, ties broken by the
original row position (this is exactly a stable descending sort on the
index-annotated rows). -/
def nlargestLe (a b : ℕ × ProductRow) : Bool :=
  decide (demandRatioOf b.2 < demandRatioOf a.2) ||
    (decide (demandRatioOf a.2 = demandRatioOf b.2) && decide (a.1 ≤ b.1))

/-- `df.nlargest(10, 'demand_ratio')` on the index-annotated rows. -/
def topDemandIndexed (rows : List ProductRow) : List (ℕ × ProductRow) :=
  ((rows.enum).mergeSort nlargestLe).take 10

/-- One record of `top_demand_products`
(columns `product_id`, `name`, `demand_ratio`). -/
structure TopDemandEntry where
  product_id : ℕ
  name : String
  demand_ratio : ℚ
deriving DecidableEq, Repr

/-- One record of `low_stock_alerts` (columns `product_id`, `name`, `stock`). -/
structure LowStockEntry where
  product_id : ℕ
  name : String
  stock : ℕ
deriving DecidableEq, Repr

/-- One value of `category_statistics`: product count, mean base price,
summed stock, summed 7-day sales. -/
structure CategoryStat where
  product_count : ℕ
  base_price : ℚ
  stock : ℕ
  sales_7 : ℕ
deriving DecidableEq, Repr

/-- Distinct categories in the `groupby('category')` key order (pandas
sorts group keys; strings are ordered by their character lists since
`String`'s order does not reduce in the kernel). -/
def categoriesSorted (rows : List ProductRow) : List String :=
  ((rows.map (fun r => r.category)).dedup).mergeSort
    (fun a b => decide (a.data < b.data) || decide (a.data = b.data))

/-- The aggregates of one category group. -/
def categoryStatFor (rows : List ProductRow) (c : String) : CategoryStat :=
  let sel := rows.filter (fun r => r.category == c)
  { product_count := sel.length
    base_price := (sel.map (fun r => r.base_price)).sum / (sel.length : ℚ)
    stock := (sel.map (fun r => r.stock)).sum
    sales_7 := (sel.map (fun r => r.sales_7)).sum }

/-- The `/api/insights` response payload. -/
structure InsightsPayload where
  total_products : ℕ
  total_stock : ℕ
  total_sales_7days : ℕ
  total_sales_30days : ℕ
  average_price : ℚ
  top_demand_products : List TopDemandEntry
  low_stock_alerts : List LowStockEntry
  category_statistics : List (String × CategoryStat)
deriving DecidableEq, Repr

/-- `get_insights()`: builds the payload from the process-wide frame, and —
via the assignment `df['demand_ratio'] = df['sales_7'] / (df['stock'] + 1)`
on the very first line — also writes the derived `demand_ratio` column into
that frame.  The returned pair is (payload, state of `df` after the call). -/
def get_insights (ds : Dataset) : InsightsPayload × Dataset :=
  let rows := ds.rows
  let payload : InsightsPayload :=
    { total_products := rows.length
      total_stock := (rows.map (fun r => r.stock)).sum
      total_sales_7days := (rows.map (fun r => r.sales_7)).sum
      total_sales_30days := (rows.map (fun r => r.sales_30)).sum
      average_price := round2 ((rows.map (fun r => r.base_price)).sum / (rows.length : ℚ))
      top_demand_products := (topDemandIndexed rows).map
        (fun x => ⟨x.2.product_id, x.2.name, demandRatioOf x.2⟩)
      low_stock_alerts := (rows.filter (fun r => decide (r.stock < 10))).map
        (fun r => ⟨r.product_id, r.name, r.stock⟩)
      category_statistics := (categoriesSorted rows).map
        (fun c => (c, categoryStatFor rows c)) }
  (payload, { rows := rows, demand_ratio_col := some (rows.map demandRatioOf) })

/-! ## Helper lemmas and sample data -/

/-- Sample row used by witnesses: the §8 scenario product
`{base_price=10, stock=9, sales_7=20, sales_30=20, day=3}`. -/
def milkRow : ProductRow := ⟨1, "Milk", "Dairy", 10, 9, 20, 20, 3⟩

/-- Rounding to 2 decimal places moves a value by at most half a cent. -/
lemma round2_dist (q : ℚ) : q - 1/200 ≤ round2 q ∧ round2 q ≤ q + 1/200 := by
  have h := abs_sub_round (q * 100)
  rw [abs_le] at h
  unfold round2
  constructor
  · linarith [h.2]
  · linarith [h.1]

/-- The clip keeps the price between 50% and 150% of a nonnegative base price. -/
lemma boundPrice_mem (raw b : ℚ) (hb : 0 ≤ b) :
    b * 0.5 ≤ boundPrice raw b ∧ boundPrice raw b ≤ b * 1.5 := by
  unfold boundPrice
  constructor
  · exact le_min (le_max_right _ _) (by nlinarith)
  · exact min_le_right _ _

/-! ## Claims -/

/-- C2: `calculate_dynamic_price` classifies `demand_level` exactly by the
thresholds: ratio > 2 ↦ "High", 1 < ratio ≤ 2 ↦ "Medium", ratio ≤ 1 ↦ "Low";
and the boundary product (base_price=10, stock=9, sales_7=20, maxStock=9,
ratio exactly 2) classifies as "Medium". -/
theorem demand_level_thresholds :
    (∀ r : ℚ, (demandLevelOf r = "High" ↔ 2 < r) ∧
      (demandLevelOf r = "Medium" ↔ 1 < r ∧ r ≤ 2) ∧
      (demandLevelOf r = "Low" ↔ r ≤ 1)) ∧
    (calculate_dynamic_price [milkRow] 1).map (fun res => res.demand_level) =
      some "Medium" := by
  constructor
  · intro r
    unfold demandLevelOf
    split_ifs with h1 h2
    · refine ⟨iff_of_true rfl h1, iff_of_false (by decide) ?_, iff_of_false (by decide) ?_⟩
      · rintro ⟨-, hr⟩; linarith
      · intro hr; linarith
    · exact ⟨iff_of_false (by decide) h1,
        iff_of_true rfl ⟨h2, le_of_not_lt h1⟩, iff_of_false (by decide) (by linarith)⟩
    · refine ⟨iff_of_false (by decide) h1, iff_of_false (by decide) ?_,
        iff_of_true rfl (le_of_not_lt h2)⟩
      rintro ⟨hr, -⟩; exact h2 hr
  · norm_num [milkRow, calculate_dynamic_price, priceRow, deriveFeatures,
      rawFallbackPrice, boundPrice, round2, demandLevelOf, demandRatioOf,
      maxStock, List.filter, round_eq, min_def, max_def]

/-- C3: for every product row and dataset-wide maximum stock, the derived
feature vector is exactly demand_ratio = sales_7/(stock+1),
inventory_level = stock/maxStock, sales_trend = sales_30/(sales_7+1),
popularity = sales_30/(base_price*stock+1), scarcity = 1/(stock+1), with
day passed through unchanged. -/
theorem derived_features_formulas (rows : List ProductRow) (p : ProductRow)
    (_hm : 0 < maxStock rows) :
    deriveFeatures p (maxStock rows) =
      { demand_ratio := (p.sales_7 : ℚ) / ((p.stock : ℚ) + 1)
        inventory_level := (p.stock : ℚ) / (maxStock rows : ℚ)
        sales_trend := (p.sales_30 : ℚ) / ((p.sales_7 : ℚ) + 1)
        popularity := (p.sales_30 : ℚ) / (p.base_price * (p.stock : ℚ) + 1)
        scarcity := 1 / ((p.stock : ℚ) + 1)
        day := (p.day : ℚ) } := rfl

/-- Witness for C3 at the sample row: the features evaluate to the
expected concrete values. -/
theorem derived_features_formulas_witness :
    0 < maxStock [milkRow] ∧
      deriveFeatures milkRow (maxStock [milkRow]) =
        { demand_ratio := 2, inventory_level := 1, sales_trend := 20/21,
          popularity := 20/91, scarcity := 1/10, day := 3 } := by
  refine ⟨by decide, ?_⟩
  rw [derived_features_formulas [milkRow] milkRow (by decide)]
  norm_num [milkRow, maxStock]

/-- C4: with no model/scaler loaded, the raw predicted price of every
product is base_price * (1 + 0.3*demand_ratio - 0.2*inventory_level),
computed from that product's derived features, before clipping. -/
theorem fallback_raw_price (rows : List ProductRow) (p : ProductRow) :
    rawFallbackPrice rows p =
      p.base_price * (1 + 0.3 * (deriveFeatures p (maxStock rows)).demand_ratio
        - 0.2 * (deriveFeatures p (maxStock rows)).inventory_level) := by
  unfold rawFallbackPrice
  ring

/-- C5 fails as stated: with a dataset whose products all have stock 0,
the `inventory_level` denominator `df['stock'].max()` is 0, even though
every stock/sales value is nonnegative and the base price is positive. -/
theorem denominators_nonzero_counterexample :
    ¬ (∀ (rows : List ProductRow), ∀ p ∈ rows, 0 < p.base_price →
        (((p.stock : ℚ) + 1 ≠ 0) ∧ ((p.sales_7 : ℚ) + 1 ≠ 0) ∧
          (p.base_price * (p.stock : ℚ) + 1 ≠ 0) ∧
          ((maxStock rows : ℚ) ≠ 0))) := by
  intro h
  have h2 := (h [⟨7, "Water", "Drinks", 10, 0, 0, 0, 1⟩]
    ⟨7, "Water", "Drinks", 10, 0, 0, 0, 1⟩ (by simp) (by norm_num)).2.2.2
  exact h2 (by norm_num [maxStock])

/-- C5 amended: all `+1`-offset denominators are nonzero for any product
with nonnegative base price, and the `inventory_level` denominator is
nonzero provided at least one product in the dataset has positive stock
(`maxStock > 0`). -/
theorem denominators_nonzero (rows : List ProductRow) (p : ProductRow)
    (hb : 0 ≤ p.base_price) (hm : 0 < maxStock rows) :
    ((p.stock : ℚ) + 1 ≠ 0) ∧ ((p.sales_7 : ℚ) + 1 ≠ 0) ∧
      (p.base_price * (p.stock : ℚ) + 1 ≠ 0) ∧
      ((maxStock rows : ℚ) ≠ 0) := by
  refine ⟨by positivity, by positivity, ?_, ?_⟩
  · have h0 : (0:ℚ) ≤ p.base_price * (p.stock : ℚ) :=
      mul_nonneg hb (by positivity)
    have h1 : (0:ℚ) < p.base_price * (p.stock : ℚ) + 1 := by linarith
    exact h1.ne'
  · exact_mod_cast Nat.pos_iff_ne_zero.mp hm

/-- Witness for C5 (amended) at the sample row and one-row dataset. -/
theorem denominators_nonzero_witness :
    ((milkRow.stock : ℚ) + 1 ≠ 0) ∧ ((milkRow.sales_7 : ℚ) + 1 ≠ 0) ∧
      (milkRow.base_price * (milkRow.stock : ℚ) + 1 ≠ 0) ∧
      ((maxStock [milkRow] : ℚ) ≠ 0) :=
  denominators_nonzero [milkRow] milkRow (by norm_num [milkRow]) (by decide)

/-- Projection: the pricing dict carries the row's base price. -/
lemma priceRow_base_price (rows : List ProductRow) (p : ProductRow) :
    (priceRow rows p).base_price = p.base_price := rfl

/-- Projection: `dynamic_price` is the clipped price rounded to 2 decimals. -/
lemma priceRow_dynamic_price (rows : List ProductRow) (p : ProductRow) :
    (priceRow rows p).dynamic_price =
      round2 (boundPrice (rawFallbackPrice rows p) p.base_price) := rfl

/-- Projection: `demand_level` is classified from the unrounded ratio. -/
lemma priceRow_demand_level (rows : List ProductRow) (p : ProductRow) :
    (priceRow rows p).demand_level = demandLevelOf (demandRatioOf p) := rfl

/-- Projection: the reported `demand_ratio` is rounded to 2 decimals. -/
lemma priceRow_demand_ratio (rows : List ProductRow) (p : ProductRow) :
    (priceRow rows p).demand_ratio = round2 (demandRatioOf p) := rfl

/-- C1 fails as stated: for base_price = 10.01 the clip bound is
1.5·10.01 = 15.015, and the returned `dynamic_price` rounds up to 15.02,
strictly above it. -/
theorem dynamic_price_in_clip_range_counterexample :
    (calculate_dynamic_price
        [⟨1, "Oil", "Pantry", 1001/100, 0, 20, 20, 3⟩,
         ⟨2, "Rice", "Pantry", 10, 5, 0, 0, 3⟩] 1).map
      (fun res => (res.base_price, res.dynamic_price)) =
      some (1001/100, 751/50) ∧
    ¬ ((751 : ℚ)/50 ≤ 1.5 * (1001/100)) := by
  constructor
  · norm_num [calculate_dynamic_price, priceRow, deriveFeatures,
      rawFallbackPrice, boundPrice, round2, demandLevelOf, maxStock,
      List.filter, round_eq, min_def, max_def]
  · norm_num

/-- C1 amended: the clip to [0.5·base_price, 1.5·base_price] holds of the
price before the output rounding; the returned `dynamic_price` (rounded to
2 decimals) satisfies the bounds with a slack of half a cent:
0.5·base_price − 0.005 ≤ dynamic_price ≤ 1.5·base_price + 0.005. -/
theorem dynamic_price_in_clip_range (rows : List ProductRow) (pid : ℕ)
    (res : PricingResult) (h : calculate_dynamic_price rows pid = some res)
    (hb : 0 < res.base_price) :
    res.base_price * 0.5 - 1/200 ≤ res.dynamic_price ∧
      res.dynamic_price ≤ res.base_price * 1.5 + 1/200 := by
  unfold calculate_dynamic_price at h
  cases hf : rows.filter (fun r => r.product_id == pid) with
  | nil => rw [hf] at h; exact absurd h (by simp)
  | cons p l =>
    rw [hf] at h
    simp only [Option.some.injEq] at h
    subst h
    rw [priceRow_base_price] at hb ⊢
    rw [priceRow_dynamic_price]
    have h1 := boundPrice_mem (rawFallbackPrice rows p) p.base_price hb.le
    have h2 := round2_dist (boundPrice (rawFallbackPrice rows p) p.base_price)
    exact ⟨by linarith [h1.1, h2.1], by linarith [h1.2, h2.2]⟩

/-- Witness for C1 (amended) at the sample one-row dataset. -/
theorem dynamic_price_in_clip_range_witness :
    (10 : ℚ) * 0.5 - 1/200 ≤ 14 ∧ (14 : ℚ) ≤ 10 * 1.5 + 1/200 := by
  have h := dynamic_price_in_clip_range [milkRow] 1
    { base_price := 10, dynamic_price := 14, discount_percent := 40,
      demand_level := "Medium", demand_ratio := 2, stock := 9 }
    (by norm_num [milkRow, calculate_dynamic_price, priceRow, deriveFeatures,
      rawFallbackPrice, boundPrice, round2, demandLevelOf, demandRatioOf,
      maxStock, List.filter, round_eq, min_def, max_def])
    (by norm_num)
  simpa using h

/-- C10: `demand_level` is classified from the exact unrounded ratio while
the reported `demand_ratio` is rounded to 2 decimals; the product with
sales_7 = 2004, stock = 999 (ratio 2.004) reports demand_ratio = 2.0
together with demand_level = "High". -/
theorem demand_level_from_unrounded_ratio :
    (∀ (rows : List ProductRow) (p : ProductRow),
      (priceRow rows p).demand_level = demandLevelOf (demandRatioOf p) ∧
      (priceRow rows p).demand_ratio = round2 (demandRatioOf p)) ∧
    (calculate_dynamic_price [⟨5, "Eggs", "Dairy", 10, 999, 2004, 2004, 1⟩] 5).map
      (fun res => (res.demand_ratio, res.demand_level)) = some (2, "High") := by
  constructor
  · exact fun rows p => ⟨rfl, rfl⟩
  · norm_num [calculate_dynamic_price, priceRow, deriveFeatures,
      rawFallbackPrice, boundPrice, round2, demandLevelOf, demandRatioOf,
      maxStock, List.filter, round_eq, min_def, max_def]

/-- C8: category lookup is case-insensitive — two casings of the same
category string yield identical responses. -/
theorem category_lookup_case_insensitive (rows : List ProductRow)
    (c1 c2 : String) (h : pyLower c1 = pyLower c2) :
    get_products_by_category rows c1 = get_products_by_category rows c2 := by
  unfold get_products_by_category
  rw [h]

/-- Witness for C8: "Dairy" and "dairy" give the same response. -/
theorem category_lookup_case_insensitive_witness :
    get_products_by_category [milkRow] "Dairy" =
      get_products_by_category [milkRow] "dairy" :=
  category_lookup_case_insensitive [milkRow] "Dairy" "dairy" (by decide)

/-- C9: `calculate_dynamic_price` returns `None` exactly when no row has the
requested id; `get_product` 404s exactly when no row has the requested id;
`get_products_by_category` 404s exactly when no row's category matches
case-insensitively. -/
theorem not_found_conditions (rows : List ProductRow) (pid : ℕ) (cat : String) :
    ((calculate_dynamic_price rows pid = none) ↔ ∀ r ∈ rows, r.product_id ≠ pid) ∧
    ((get_product rows pid = .error 404) ↔ ∀ r ∈ rows, r.product_id ≠ pid) ∧
    ((get_products_by_category rows cat = .error 404) ↔
      ∀ r ∈ rows, pyLower r.category ≠ pyLower cat) := by
  have hkey : (rows.filter (fun r => r.product_id == pid) = []) ↔
      (∀ r ∈ rows, r.product_id ≠ pid) := by
    rw [List.filter_eq_nil_iff]
    simp
  refine ⟨?_, ?_, ?_⟩
  · have h1 : calculate_dynamic_price rows pid = none ↔
        rows.filter (fun r => r.product_id == pid) = [] := by
      unfold calculate_dynamic_price
      cases hf : rows.filter (fun r => r.product_id == pid) <;> simp [hf]
    exact h1.trans hkey
  · have h2 : get_product rows pid = .error 404 ↔
        rows.filter (fun r => r.product_id == pid) = [] := by
      unfold get_product
      cases hf : rows.filter (fun r => r.product_id == pid) with
      | nil => simp
      | cons p l =>
        have hc : calculate_dynamic_price rows pid = some (priceRow rows p) := by
          unfold calculate_dynamic_price
          rw [hf]
        rw [hc]
        simp
    exact h2.trans hkey
  · have h3 : get_products_by_category rows cat = .error 404 ↔
        rows.filter (fun r => pyLower r.category == pyLower cat) = [] := by
      unfold get_products_by_category
      cases hf : rows.filter (fun r => pyLower r.category == pyLower cat) <;>
        simp [hf]
    rw [h3, List.filter_eq_nil_iff]
    simp

/-- C6 fails as stated: `get_insights` mutates the process-wide frame — on a
dataset without a `demand_ratio` column, the frame after the call differs
from the frame before it. -/
theorem insights_read_only_counterexample :
    (get_insights ⟨[milkRow], none⟩).2 ≠ ⟨[milkRow], none⟩ := by
  intro h
  have h2 := congrArg Dataset.demand_ratio_col h
  simp [get_insights] at h2

/-- C6 amended: computing the insights payload leaves every product row (all
original columns and fields) unchanged, but assigns the derived
`demand_ratio` column into the process-wide frame, overwriting any previous
one; nothing else about the frame changes. -/
theorem insights_frame_effect (ds : Dataset) :
    (get_insights ds).2.rows = ds.rows ∧
    (get_insights ds).2.demand_ratio_col = some (ds.rows.map demandRatioOf) :=
  ⟨rfl, rfl⟩

/-- Transitivity of the `nlargest` comparator. -/
lemma nlargestLe_trans (a b c : ℕ × ProductRow) :
    nlargestLe a b → nlargestLe b c → nlargestLe a c := by
  intro hab hbc
  simp only [nlargestLe, Bool.or_eq_true, Bool.and_eq_true,
    decide_eq_true_eq] at *
  rcases hab with h1 | ⟨h1, h2⟩ <;> rcases hbc with h3 | ⟨h3, h4⟩
  · exact Or.inl (lt_trans h3 h1)
  · exact Or.inl (h3 ▸ h1)
  · exact Or.inl (h1 ▸ h3)
  · exact Or.inr ⟨h1.trans h3, h2.trans h4⟩

/-- Totality of the `nlargest` comparator. -/
lemma nlargestLe_total (a b : ℕ × ProductRow) :
    nlargestLe a b || nlargestLe b a := by
  simp only [nlargestLe, Bool.or_eq_true, Bool.and_eq_true, decide_eq_true_eq]
  rcases lt_trichotomy (demandRatioOf a.2) (demandRatioOf b.2) with h | h | h
  · tauto
  · rcases Nat.le_total a.1 b.1 with h2 | h2 <;> tauto
  · tauto

/-- C7: the `top_demand_products` list has length at most 10, the underlying
`nlargest` selection is sorted by descending demand ratio with ties in
original dataset order (position indices increasing), and the payload list
is exactly its per-record projection. -/
theorem top_demand_sorted_bounded (ds : Dataset) :
    (get_insights ds).1.top_demand_products.length ≤ 10 ∧
    (topDemandIndexed ds.rows).Pairwise
      (fun a b => demandRatioOf b.2 ≤ demandRatioOf a.2 ∧
        (demandRatioOf a.2 = demandRatioOf b.2 → a.1 ≤ b.1)) ∧
    (get_insights ds).1.top_demand_products =
      (topDemandIndexed ds.rows).map
        (fun x => ⟨x.2.product_id, x.2.name, demandRatioOf x.2⟩) := by
  refine ⟨?_, ?_, rfl⟩
  · show ((topDemandIndexed ds.rows).map _).length ≤ 10
    rw [List.length_map]
    unfold topDemandIndexed
    rw [List.length_take]
    exact Nat.min_le_left _ _
  · have hs := List.sorted_mergeSort nlargestLe_trans nlargestLe_total
      (ds.rows.enum)
    have hp : (topDemandIndexed ds.rows).Pairwise (fun a b => nlargestLe a b) :=
      hs.sublist (List.take_sublist 10 _)
    refine hp.imp ?_
    intro a b hab
    simp only [nlargestLe, Bool.or_eq_true, Bool.and_eq_true,
      decide_eq_true_eq] at hab
    rcases hab with h1 | ⟨h1, h2⟩
    · refine ⟨h1.le, ?_⟩
      intro he
      rw [he] at h1
      exact absurd h1 (lt_irrefl _)
    · exact ⟨h1.ge, fun _ => h2⟩
